import Mathlib

/-!
Verification development for the UCP merchant-protocol client
(`ucp_client.py`).  The Python source is shallowly embedded: JSON values
become an inductive `Json` type, dataclasses become structures whose
fields hold the JSON values the Python runtime would store (Python does
not enforce dataclass field annotations), the mutable merchant cache
becomes explicit state passing, and the HTTP transport becomes a
function from requests to results.  An operation's outcome is `ok`,
`raised` (a `UCPError` / subclass raised by the client) or `crash`
(an exception the client code does not itself raise or catch, e.g. a
`KeyError` from `c["name"]`, an `AttributeError` from calling `.get`
on a non-dict, or a JSON decode error on a 2xx body).
-/

set_option autoImplicit false

/-- JSON values, as produced by `response.json()`.  Numbers are modelled
as integers, which covers every numeric field the client touches
(status codes, cent amounts, quantities). -/
inductive Json where
  | null
  | bool (b : Bool)
  | num (n : Int)
  | str (s : String)
  | arr (xs : List Json)
  | obj (kvs : List (String × Json))

/-- Python `d.get(k, default)` on a dict modelled as an association
list: the value under the first matching key, else the default. -/
def jget (o : List (String × Json)) (k : String) (d : Json) : Json :=
  (List.lookup k o).getD d

/-- View a JSON value as a dict, as required by Python code that calls
`.get` on it; any other shape makes that code raise. -/
def Json.asObj : Json → Option (List (String × Json))
  | .obj o => some o
  | _ => none

/-- View a JSON value as a list, as required by code iterating it as a
sequence of items. -/
def Json.asArr : Json → Option (List Json)
  | .arr xs => some xs
  | _ => none

/-- View a JSON value as a string (e.g. an argument that
`datetime.fromisoformat` or `.rstrip` would otherwise reject). -/
def Json.asStr : Json → Option String
  | .str s => some s
  | _ => none

/-- Python `==` between a JSON value and a string literal: true exactly
when the value is that string (a non-`str` value never equals a `str`). -/
def Json.isStrE : Json → String → Bool
  | .str a, b => a == b
  | _, _ => false

/-- Python truthiness of a JSON value (`if not x`): `None`, `False`,
`0`, `""`, `[]` and `{}` are falsy. -/
def jsonFalsy : Json → Bool
  | .null => true
  | .bool b => !b
  | .num n => n == 0
  | .str s => s == ""
  | .arr xs => xs.isEmpty
  | .obj kvs => kvs.isEmpty

/-- Python `s.rstrip('/')`: remove every trailing slash. -/
def rstripSlash (s : String) : String :=
  String.mk ((s.data.reverse.dropWhile (fun c => c == '/')).reverse)

/-- The client's protocol version, `UCPClient.UCP_VERSION`. -/
def UCP_VERSION : String := "2026-01-11"

/-- An error raised by the client: `VersionError` and `CapabilityError`
are the two `UCPError` subclasses; `ucpError` is the base class with
its `code`, `message` and `details`.  Fields that Python fills from
parsed JSON keep type `Json`. -/
inductive UCPErr where
  | versionError (agent_version : String) (required_version : Json)
  | capabilityError (capability : Json)
  | ucpError (code : Json) (message : Json) (details : Json)

/-- The `try` block of `UCPClient._handle_error_response`: extract
`(code, message, details)` from the response body parsed as
`{error: {code, message, details}}`.  `none` signals that some step
raised (no JSON body, body not a dict, or `error` value not a dict),
which the source catches with `except Exception`. -/
def extractErrorFields (body : Option Json) : Option (Json × Json × Json) := do
  let data ← body
  let dataObj ← data.asObj
  let errObj ← (jget dataObj "error" (.obj [])).asObj
  pure (jget errObj "code" (.str "unknown_error"),
        jget errObj "message" (.str "Unknown error"),
        jget errObj "details" (.obj []))

/-- `UCPClient._handle_error_response`: map a non-2xx response to the
raised error.  On parse failure, synthesize `code = "http_<status>"`
and `message = response.text or "Unknown error"`.  Result `none`
models the uncaught `AttributeError` when `details` is not a dict and
`code` is one of the two specially-handled codes. -/
def handleErrorResponse (status : Nat) (body : Option Json) (text : String) :
    Option UCPErr :=
  let fields :=
    match extractErrorFields body with
    | some t => t
    | none =>
        (.str ("http_" ++ toString status),
         .str (if text = "" then "Unknown error" else text),
         .obj [])
  let code := fields.1
  let message := fields.2.1
  let details := fields.2.2
  if code.isStrE "version_mismatch" then
    match details.asObj with
    | some d => some (.versionError UCP_VERSION (jget d "required_version" (.str "unknown")))
    | none => none
  else if code.isStrE "capability_not_supported" then
    match details.asObj with
    | some d => some (.capabilityError (jget d "capability" (.str "unknown")))
    | none => none
  else
    some (.ucpError code message details)

/-- `Capability` dataclass.  `name` comes from `c["name"]` and
`version` from `c.get("version", "")`, so both hold JSON values. -/
structure Capability where
  name : Json
  version : Json

/-- `PaymentHandler` dataclass. -/
structure PaymentHandler where
  id : Json
  type : Json
  config : Json

/-- `MerchantProfile` dataclass as filled by `UCPClient.discover`. -/
structure MerchantProfile where
  name : Json
  description : Json
  rest_endpoint : Json
  ucp_version : Json
  capabilities : List Capability
  payment_handlers : List PaymentHandler
  extensions : Json

/-- `LineItem` dataclass as filled by
`UCPClient._parse_checkout_session`; every field comes from
`item.get(...)` and so holds a JSON value. -/
structure LineItem where
  sku : Json
  quantity : Json
  price_cents : Json
  name : Json
  description : Json

/-- `CheckoutSession` dataclass as filled by
`UCPClient._parse_checkout_session`.  The two date fields keep the
ISO string that `datetime.fromisoformat` was given (the calendar
grammar of that string is not modelled; a non-string argument, which
makes `fromisoformat` raise, is). -/
structure CheckoutSession where
  id : Json
  status : Json
  merchant_url : String
  line_items : List LineItem
  subtotal_cents : Json
  tax_cents : Json
  shipping_cents : Json
  discount_cents : Json
  total_cents : Json
  currency : Json
  payment_handlers : List PaymentHandler
  created_at : String
  expires_at : String
  terms : Json

/-- `Order` dataclass as filled by `complete_checkout` / `get_order`. -/
structure Order where
  id : Json
  status : Json
  confirmation_number : Json
  total_cents : Json
  currency : Json

/-- One element of `ucp_data.get("capabilities", [])`:
`Capability(name=c["name"], version=c.get("version", ""))`.  `none`
models the exception when `c` is not a dict or lacks `"name"`. -/
def parseCapability (c : Json) : Option Capability := do
  let o ← c.asObj
  let n ← List.lookup "name" o
  pure { name := n, version := jget o "version" (.str "") }

/-- One element of `ucp_data.get("payment_handlers", [])`. -/
def parsePaymentHandler (h : Json) : Option PaymentHandler := do
  let o ← h.asObj
  pure { id := jget o "id" (.str ""), type := jget o "type" (.str ""),
         config := jget o "config" (.obj []) }

/-- The profile-building part of `UCPClient.discover`, applied to the
JSON body of the well-known response.  `none` models an uncaught
exception (body not a dict, capability/handler lists malformed, ...). -/
def parseProfile (merchant_url : String) (data : Json) : Option MerchantProfile := do
  let dObj ← data.asObj
  let ucpObj ← (jget dObj "ucp" (.obj [])).asObj
  let merObj ← (jget dObj "merchant" (.obj [])).asObj
  let capsJson ← (jget ucpObj "capabilities" (.arr [])).asArr
  let capabilities ← capsJson.mapM parseCapability
  let phsJson ← (jget ucpObj "payment_handlers" (.arr [])).asArr
  let payment_handlers ← phsJson.mapM parsePaymentHandler
  pure { name := jget merObj "name" (.str "Unknown"),
         description := jget merObj "description" (.str ""),
         rest_endpoint := jget merObj "rest_endpoint" (.str merchant_url),
         ucp_version := jget ucpObj "version" (.str ""),
         capabilities := capabilities,
         payment_handlers := payment_handlers,
         extensions := jget ucpObj "extensions" (.arr []) }

/-- One element of `data.get("line_items", [])` in
`_parse_checkout_session`; note `quantity` defaults to `0` and
`price_cents` / `name` / `description` default to `None`. -/
def parseLineItem (item : Json) : Option LineItem := do
  let o ← item.asObj
  pure { sku := jget o "sku" (.str ""),
         quantity := jget o "quantity" (.num 0),
         price_cents := jget o "price_cents" .null,
         name := jget o "name" .null,
         description := jget o "description" .null }

/-- `UCPClient._parse_checkout_session`.  `now` is the ISO string of
`datetime.now()`, injected because the source reads the real clock to
default the two date fields.  `none` models an uncaught exception. -/
def parseCheckoutSession (data : Json) (merchant_url : String)
    (payment_handlers : List PaymentHandler) (now : String) :
    Option CheckoutSession := do
  let o ← data.asObj
  let itemsJson ← (jget o "line_items" (.arr [])).asArr
  let line_items ← itemsJson.mapM parseLineItem
  let created_at ← (jget o "created_at" (.str now)).asStr
  let expires_at ← (jget o "expires_at" (.str now)).asStr
  pure { id := jget o "id" (.str ""),
         status := jget o "status" (.str "incomplete"),
         merchant_url := merchant_url,
         line_items := line_items,
         subtotal_cents := jget o "subtotal_cents" (.num 0),
         tax_cents := jget o "tax_cents" (.num 0),
         shipping_cents := jget o "shipping_cents" (.num 0),
         discount_cents := jget o "discount_cents" (.num 0),
         total_cents := jget o "total_cents" (.num 0),
         currency := jget o "currency" (.str "USD"),
         payment_handlers := payment_handlers,
         created_at := created_at,
         expires_at := expires_at,
         terms := jget o "terms" (.obj []) }

/-- The `Order(...)` construction shared by `complete_checkout` and
`get_order`, applied to the response body. -/
def parseOrder (data : Json) : Option Order := do
  let o ← data.asObj
  pure { id := jget o "id" (.str ""),
         status := jget o "status" (.str "unknown"),
         confirmation_number := jget o "confirmation_number" .null,
         total_cents := jget o "total_cents" (.num 0),
         currency := jget o "currency" (.str "USD") }

/-- An outbound HTTP request issued through the shared `httpx` client:
method, URL, and the `json=` payload when one is sent. -/
structure Request where
  method : String
  url : String
  body : Option Json

/-- A received HTTP response: status code, result of `response.json()`
(`none` when the body is not JSON, so that call raises), and
`response.text`. -/
structure HttpResponse where
  status : Nat
  body : Option Json
  text : String

/-- What the transport returns for a request: a response, or an
`httpx.RequestError` (connection refused, timeout, DNS) with its
message. -/
inductive HttpResult where
  | resp (r : HttpResponse)
  | connError (msg : String)

/-- The transport layer: a deterministic map from requests to results,
standing in for the network during one client operation. -/
def Net : Type := Request → HttpResult

/-- The client's mutable state: `self._merchant_cache`, a dict from
merchant URL to profile, modelled as an association list whose first
matching key wins. -/
structure ClientState where
  merchant_cache : List (String × MerchantProfile)

/-- `httpx.Response.raise_for_status` succeeds exactly on 2xx. -/
def is2xx (status : Nat) : Bool :=
  200 ≤ status && status < 300

/-- Outcome of one client operation: a returned value, a raised
`UCPError` (or subclass), or an exception the client neither raises
nor catches itself (`crash`). -/
inductive CallResult (α : Type) where
  | ok (a : α)
  | raised (e : UCPErr)
  | crash

/-- Lift the mapper's result to an outcome: the mapper's error is
raised; its `none` case propagates as an uncaught exception. -/
def raiseMapped {α : Type} (e : Option UCPErr) : CallResult α :=
  match e with
  | some err => .raised err
  | none => .crash

/-- The `UCPError("network_error", f"Network error: {e}")` raised by
the four session/order operations on `httpx.RequestError`. -/
def networkError (msg : String) : UCPErr :=
  .ucpError (.str "network_error") (.str ("Network error: " ++ msg)) (.obj [])

/-- The `try / except` block shared verbatim by `create_checkout`,
`update_checkout`, `complete_checkout` and `get_order`: issue the
request; on a non-2xx status defer to `_handle_error_response`; on
`httpx.RequestError` raise `network_error`; on success hand the parsed
JSON body to the continuation. -/
def wireCall {α : Type} (net : Net) (req : Request) (onOk : Json → CallResult α) :
    CallResult α :=
  match net req with
  | .connError msg => .raised (networkError msg)
  | .resp r =>
      if is2xx r.status then
        match r.body with
        | none => .crash
        | some data => onOk data
      else
        raiseMapped (handleErrorResponse r.status r.body r.text)

/-- The well-known discovery URL:
`merchant_url.rstrip('/') + "/.well-known/ucp"`. -/
def wellKnownURL (merchant_url : String) : String :=
  rstripSlash merchant_url ++ "/.well-known/ucp"

/-- The cache-miss path of `UCPClient.discover`: fetch the well-known
endpoint.  A non-2xx status raises `UCPError("discovery_failed", ...)`,
a `RequestError` raises `UCPError("network_error", ...)`; on success
the parsed profile is stored in the cache.  Returns the outcome, the
new state and the requests issued. -/
def discoverFetch (net : Net) (merchant_url : String) (st : ClientState) :
    CallResult MerchantProfile × ClientState × List Request :=
  let req : Request := { method := "GET", url := wellKnownURL merchant_url, body := none }
  match net req with
  | .connError msg =>
      (.raised (.ucpError (.str "network_error")
          (.str ("Network error during discovery: " ++ msg)) (.obj [])), st, [req])
  | .resp r =>
      if is2xx r.status then
        match r.body with
        | none => (.crash, st, [req])
        | some data =>
            match parseProfile merchant_url data with
            | none => (.crash, st, [req])
            | some profile =>
                (.ok profile,
                 { merchant_cache := (merchant_url, profile) :: st.merchant_cache },
                 [req])
      else
        (.raised (.ucpError (.str "discovery_failed")
            (.str ("Failed to discover merchant: " ++ toString r.status)) (.obj [])),
         st, [req])

/-- `UCPClient.discover`: return the cached profile when the URL is a
cache key, otherwise fetch and cache it. -/
def discover (net : Net) (merchant_url : String) (st : ClientState) :
    CallResult MerchantProfile × ClientState × List Request :=
  match List.lookup merchant_url st.merchant_cache with
  | some p => (.ok p, st, [])
  | none => discoverFetch net merchant_url st

/-- The agent capability set hardcoded in `UCPClient.negotiate`. -/
def agentCapabilities : Finset String := {"dev.ucp.shopping.checkout"}

/-- The agent payment-handler set hardcoded in `UCPClient.negotiate`. -/
def agentHandlers : Finset String := {"com.google.pay", "dev.ucp.ap2"}

/-- The negotiation result: Python builds both components as sets, so
they are modelled as finite sets of strings (every element of the
intersection lies in the agent's string set, since a Python `str`
equals no non-`str` JSON value). -/
structure NegotiationResult where
  capabilities : Finset String
  payment_handlers : Finset String
  deriving DecidableEq

/-- Whether a JSON value is hashable in Python: lists and dicts are
not, so putting one into a set raises `TypeError`. -/
def Json.hashable : Json → Bool
  | .arr _ => false
  | .obj _ => false
  | _ => true

/-- Modelled from the spec: `negotiate(merchantProfile,
agentCapabilities, agentPaymentHandlers)` with the agent sets as
parameters, as §4.5 of the spec words it.  The intersection
`agent & {c.name for c in capabilities}` consists exactly of the agent
strings occurring among the merchant capability names, and likewise
for handler types. -/
def negotiateWith (ac ah : Finset String) (p : MerchantProfile) : NegotiationResult :=
  { capabilities := ac.filter (fun s => p.capabilities.any (fun c => c.name.isStrE s)),
    payment_handlers := ah.filter (fun s => p.payment_handlers.any (fun h => h.type.isStrE s)) }

/-- `UCPClient.negotiate`: build the merchant capability-name and
handler-type sets and intersect them with the hardcoded agent sets.
The set comprehensions `{c.name for c in ...}` and
`{h.type for h in ...}` hash every element, so a JSON array or object
among the names or types raises `TypeError`, modelled as `none`. -/
def negotiate (p : MerchantProfile) : Option NegotiationResult :=
  if p.capabilities.all (fun c => c.name.hashable) &&
     p.payment_handlers.all (fun h => h.type.hashable) then
    some (negotiateWith agentCapabilities agentHandlers p)
  else
    none

/-- Python dict construction `{k₁: v₁, ..., **upd}`: entries of `upd`
override the base entries; lookup favours `upd`. -/
def dictMerge (base upd : List (String × Json)) : List (String × Json) :=
  upd ++ base.filter (fun kv => (List.lookup kv.1 upd).isNone)

/-- `kwargs.pop("merchant_url", None)`'s effect on the dict: the
remaining entries. -/
def popMerchantURL (kwargs : List (String × Json)) : List (String × Json) :=
  kwargs.filter (fun kv => kv.1 ≠ "merchant_url")

/-- `UCPClient.create_checkout`: discover (through the cache), gate on
the `"dev.ucp.shopping.checkout"` capability, then POST
`{line_items: ..., **kwargs}` to `{rest_endpoint}/checkout` and parse
the session.  `now` is the injected clock for date defaulting. -/
def create_checkout (net : Net) (merchant_url : String) (line_items : Json)
    (kwargs : List (String × Json)) (now : String) (st : ClientState) :
    CallResult CheckoutSession × ClientState × List Request :=
  match discover net merchant_url st with
  | (.ok merchant, st1, q1) =>
      if merchant.capabilities.any (fun c => c.name.isStrE "dev.ucp.shopping.checkout") then
        match merchant.rest_endpoint with
        | .str ep =>
            let payload := Json.obj (dictMerge [("line_items", line_items)] kwargs)
            let req : Request :=
              { method := "POST", url := rstripSlash ep ++ "/checkout", body := some payload }
            (wireCall net req (fun data =>
                match parseCheckoutSession data merchant_url merchant.payment_handlers now with
                | some s => .ok s
                | none => .crash),
             st1, q1 ++ [req])
        | _ => (.crash, st1, q1)
      else
        (.raised (.capabilityError (.str "dev.ucp.shopping.checkout")), st1, q1)
  | (.raised e, st1, q1) => (.raised e, st1, q1)
  | (.crash, st1, q1) => (.crash, st1, q1)

/-- `UCPClient.update_checkout`: pop `merchant_url` from the options
(raising `invalid_request` when missing or falsy), discover, then
PATCH the remaining options to `{rest_endpoint}/checkout/{session_id}`
and parse the session.  A truthy non-string `merchant_url` makes
`discover`'s string handling raise. -/
def update_checkout (net : Net) (session_id : String)
    (kwargs : List (String × Json)) (now : String) (st : ClientState) :
    CallResult CheckoutSession × ClientState × List Request :=
  let murl := (List.lookup "merchant_url" kwargs).getD .null
  let rest := popMerchantURL kwargs
  if jsonFalsy murl then
    (.raised (.ucpError (.str "invalid_request")
        (.str "merchant_url required for update") (.obj [])), st, [])
  else
    match murl with
    | .str mu =>
        match discover net mu st with
        | (.ok merchant, st1, q1) =>
            match merchant.rest_endpoint with
            | .str ep =>
                let req : Request :=
                  { method := "PATCH",
                    url := rstripSlash ep ++ "/checkout/" ++ session_id,
                    body := some (Json.obj rest) }
                (wireCall net req (fun data =>
                    match parseCheckoutSession data mu merchant.payment_handlers now with
                    | some s => .ok s
                    | none => .crash),
                 st1, q1 ++ [req])
            | _ => (.crash, st1, q1)
        | (.raised e, st1, q1) => (.raised e, st1, q1)
        | (.crash, st1, q1) => (.crash, st1, q1)
    | _ => (.crash, st, [])

/-- `UCPClient.complete_checkout`: pop `merchant_url` (raising
`invalid_request` when missing or falsy), discover, then POST
`{payment: payment_data, **kwargs}` to
`{rest_endpoint}/checkout/{session_id}/complete` and parse the order. -/
def complete_checkout (net : Net) (session_id : String) (payment_data : Json)
    (kwargs : List (String × Json)) (st : ClientState) :
    CallResult Order × ClientState × List Request :=
  let murl := (List.lookup "merchant_url" kwargs).getD .null
  let rest := popMerchantURL kwargs
  if jsonFalsy murl then
    (.raised (.ucpError (.str "invalid_request")
        (.str "merchant_url required for completion") (.obj [])), st, [])
  else
    match murl with
    | .str mu =>
        match discover net mu st with
        | (.ok merchant, st1, q1) =>
            match merchant.rest_endpoint with
            | .str ep =>
                let payload := Json.obj (dictMerge [("payment", payment_data)] rest)
                let req : Request :=
                  { method := "POST",
                    url := rstripSlash ep ++ "/checkout/" ++ session_id ++ "/complete",
                    body := some payload }
                (wireCall net req (fun data =>
                    match parseOrder data with
                    | some o => .ok o
                    | none => .crash),
                 st1, q1 ++ [req])
            | _ => (.crash, st1, q1)
        | (.raised e, st1, q1) => (.raised e, st1, q1)
        | (.crash, st1, q1) => (.crash, st1, q1)
    | _ => (.crash, st, [])

/-- `UCPClient.get_order`: discover (through the cache), then GET
`{rest_endpoint}/orders/{order_id}` and parse the order. -/
def get_order (net : Net) (order_id : String) (merchant_url : String) (st : ClientState) :
    CallResult Order × ClientState × List Request :=
  match discover net merchant_url st with
  | (.ok merchant, st1, q1) =>
      match merchant.rest_endpoint with
      | .str ep =>
          let req : Request :=
            { method := "GET", url := rstripSlash ep ++ "/orders/" ++ order_id, body := none }
          (wireCall net req (fun data =>
              match parseOrder data with
              | some o => .ok o
              | none => .crash),
           st1, q1 ++ [req])
      | _ => (.crash, st1, q1)
  | (.raised e, st1, q1) => (.raised e, st1, q1)
  | (.crash, st1, q1) => (.crash, st1, q1)

/-- Two sequential `discover` calls for the same URL on a shared
client: outcomes of both calls, the final state, and all requests
issued. -/
def discoverTwice (net : Net) (merchant_url : String) (st : ClientState) :
    CallResult MerchantProfile × CallResult MerchantProfile × ClientState × List Request :=
  match discover net merchant_url st with
  | (r1, st1, q1) =>
      match discover net merchant_url st1 with
      | (r2, st2, q2) => (r1, r2, st2, q1 ++ q2)

/-- A response body of the structured error shape
`{error: {code, message, details}}`. -/
def errBody (code message : String) (details : List (String × Json)) : Json :=
  .obj [("error", .obj [("code", .str code), ("message", .str message),
                        ("details", .obj details)])]

theorem extractErrorFields_errBody (code message : String)
    (details : List (String × Json)) :
    extractErrorFields (some (errBody code message details)) =
      some (Json.str code, Json.str message, Json.obj details) := by
  simp [extractErrorFields, errBody, Json.asObj, jget, List.lookup]

/-- C2: for every structured error body `{error: {code, message,
details}}`, the error mapper raises `VersionError` carrying
`details.required_version` when the code is `"version_mismatch"`,
`CapabilityError` carrying `details.capability` when the code is
`"capability_not_supported"`, and a generic `UCPError` carrying the
parsed code, message and details otherwise — independently of the HTTP
status code and of the raw body text. -/
theorem handleErrorResponse_structured (status : Nat) (text : String)
    (code message : String) (details : List (String × Json)) :
    handleErrorResponse status (some (errBody code message details)) text =
      (if code = "version_mismatch" then
        some (.versionError UCP_VERSION (jget details "required_version" (.str "unknown")))
       else if code = "capability_not_supported" then
        some (.capabilityError (jget details "capability" (.str "unknown")))
       else
        some (.ucpError (.str code) (.str message) (.obj details))) := by
  simp only [handleErrorResponse, extractErrorFields_errBody, Json.isStrE, Json.asObj]
  by_cases h1 : code = "version_mismatch" <;>
    by_cases h2 : code = "capability_not_supported" <;>
      simp [h1, h2]

/-- C7 counterexample: a non-2xx response with an unparseable (empty)
body maps to message `"Unknown error"`, not to the empty message the
claim states. -/
theorem c7_empty_body_message_counterexample :
    handleErrorResponse 500 none "" =
      some (.ucpError (.str "http_500") (.str "Unknown error") (.obj [])) ∧
    handleErrorResponse 500 none "" ≠
      some (.ucpError (.str "http_500") (.str "") (.obj [])) := by
  constructor
  · rfl
  · intro h
    rw [show handleErrorResponse 500 none "" =
          some (.ucpError (.str "http_500") (.str "Unknown error") (.obj [])) from rfl] at h
    simp at h

theorem append_ne_of_head_ne (a : Char) (pre s t : String)
    (hpre : ∀ l : List Char, (String.mk (pre.data ++ l)).data = pre.data ++ l)
    (hhead : pre.data.head? = some a) (hth : t.data.head? ≠ some a)
    (happ : pre ++ s = t) : False := by
  have hd : (pre ++ s).data = t.data := by rw [happ]
  have h1 : (pre ++ s).data = pre.data ++ s.data := by
    cases pre with
    | mk lp =>
      cases s with
      | mk ls => exact hpre ls
  rw [h1] at hd
  apply hth
  rw [← hd]
  cases hp : pre.data with
  | nil => rw [hp] at hhead; exact absurd hhead (by simp)
  | cons c cs =>
      rw [hp] at hhead
      simp at hhead
      simp [hhead]

theorem http_prefix_ne_version_mismatch (s : String) :
    ¬ ("http_" ++ s = "version_mismatch") := by
  intro h
  exact append_ne_of_head_ne 'h' "http_" s "version_mismatch"
    (fun l => rfl) rfl (by simp) h

theorem http_prefix_ne_capability_not_supported (s : String) :
    ¬ ("http_" ++ s = "capability_not_supported") := by
  intro h
  exact append_ne_of_head_ne 'h' "http_" s "capability_not_supported"
    (fun l => rfl) rfl (by simp) h

/-- C7 amended: for every non-2xx response whose body does not parse
as a structured error payload, the raised error is a generic
`UCPError` whose code is `"http_"` followed by the status code and
whose message is the raw body text, or `"Unknown error"` when the body
text is empty. -/
theorem handleErrorResponse_unparseable (status : Nat) (body : Option Json)
    (text : String) (hfail : extractErrorFields body = none) :
    handleErrorResponse status body text =
      some (.ucpError (.str ("http_" ++ toString status))
        (.str (if text = "" then "Unknown error" else text)) (.obj [])) := by
  simp only [handleErrorResponse, hfail, Json.isStrE]
  rw [if_neg, if_neg]
  · simp [http_prefix_ne_capability_not_supported]
  · simp [http_prefix_ne_version_mismatch]

/-- Witness for the amended C7 at a concrete unparseable body. -/
theorem handleErrorResponse_unparseable_witness :
    extractErrorFields (some (Json.str "oops")) = none ∧
    handleErrorResponse 404 (some (Json.str "oops")) "oops" =
      some (.ucpError (.str "http_404") (.str "oops") (.obj [])) :=
  ⟨rfl, handleErrorResponse_unparseable 404 (some (Json.str "oops")) "oops" rfl⟩

/-- A merchant profile advertising capabilities named `"A"` and `"B"`,
matching the profile of the spec's negotiation example. -/
def profileAB : MerchantProfile :=
  { name := .str "M", description := .str "",
    rest_endpoint := .str "https://api.example",
    ucp_version := .str "2026-01-11",
    capabilities := [{ name := .str "A", version := .str "" },
                     { name := .str "B", version := .str "" }],
    payment_handlers := [], extensions := .arr [] }

/-- C1 counterexample: the agent's capability set is hardcoded in
`negotiate`, not a parameter.  For the merchant profile with
capabilities `{A, B}` and the claimed agent capabilities `{B, C}`, the
spec-worded `negotiateWith` yields `{B}`, but `negotiate` yields the
empty set: the source intersects with
`{"dev.ucp.shopping.checkout"}` no matter what the agent would
declare. -/
theorem negotiate_hardcoded_counterexample :
    negotiate profileAB = some { capabilities := ∅, payment_handlers := ∅ } ∧
    (negotiateWith {"B", "C"} {} profileAB).capabilities = {"B"} ∧
    negotiate profileAB ≠ some (negotiateWith {"B", "C"} {} profileAB) := by
  refine ⟨by decide, by decide, by decide⟩

/-- A merchant profile advertising capabilities `"A"` and
`"dev.ucp.shopping.checkout"` and a payment handler of type
`"com.google.pay"`. -/
def profileACheckout : MerchantProfile :=
  { name := .str "M", description := .str "",
    rest_endpoint := .str "https://api.example",
    ucp_version := .str "2026-01-11",
    capabilities := [{ name := .str "A", version := .str "" },
                     { name := .str "dev.ucp.shopping.checkout", version := .str "1" }],
    payment_handlers := [{ id := .str "gp", type := .str "com.google.pay",
                           config := .obj [] }],
    extensions := .arr [] }

/-- C1 amended: whenever `negotiate` returns a result (that is, every
merchant capability name and payment-handler type is a hashable JSON
value), that result is exactly the intersection of the hardcoded agent
capability set `{"dev.ucp.shopping.checkout"}` with the merchant's
capability names, and of the hardcoded handler set
`{"com.google.pay", "dev.ucp.ap2"}` with the merchant's
payment-handler types; the agent sets are not parameters.  `negotiate`
raises `TypeError` exactly when some capability name or handler type
is a JSON array or object.  In particular, for a merchant with
capabilities `{A, dev.ucp.shopping.checkout}` the result is exactly
`{dev.ucp.shopping.checkout}`. -/
theorem negotiate_exact_intersection :
    (∀ p r, negotiate p = some r →
        (∀ s, s ∈ r.capabilities ↔
            s ∈ agentCapabilities ∧
              p.capabilities.any (fun c => c.name.isStrE s) = true) ∧
        (∀ s, s ∈ r.payment_handlers ↔
            s ∈ agentHandlers ∧
              p.payment_handlers.any (fun h => h.type.isStrE s) = true)) ∧
    (∀ p, negotiate p = none ↔
        ((∃ c ∈ p.capabilities, c.name.hashable = false) ∨
         (∃ h ∈ p.payment_handlers, h.type.hashable = false))) ∧
    negotiate profileACheckout =
      some { capabilities := {"dev.ucp.shopping.checkout"},
             payment_handlers := {"com.google.pay"} } := by
  refine ⟨?_, ?_, by decide⟩
  · intro p r hr
    unfold negotiate at hr
    split at hr
    · obtain rfl : negotiateWith agentCapabilities agentHandlers p = r := by
        simpa using hr
      constructor
      · intro s
        simp [negotiateWith, Finset.mem_filter]
      · intro s
        simp [negotiateWith, Finset.mem_filter]
    · simp at hr
  · intro p
    unfold negotiate
    constructor
    · intro hn
      split at hn
      · simp at hn
      · next hcond =>
          rw [Bool.and_eq_true, not_and_or] at hcond
          rcases hcond with hc | hc
          · exact Or.inl (by simpa [List.all_eq_true] using hc)
          · exact Or.inr (by simpa [List.all_eq_true] using hc)
    · intro hn
      rw [if_neg]
      rw [Bool.and_eq_true, not_and_or]
      rcases hn with hc | hc
      · exact Or.inl (by simpa [List.all_eq_true] using hc)
      · exact Or.inr (by simpa [List.all_eq_true] using hc)

/-- A merchant profile one of whose capability names is a JSON array —
a value the Python set comprehension in `negotiate` cannot hash. -/
def profileArrName : MerchantProfile :=
  { name := .str "M", description := .str "",
    rest_endpoint := .str "https://api.example",
    ucp_version := .str "2026-01-11",
    capabilities := [{ name := .arr [.str "A"], version := .str "" }],
    payment_handlers := [], extensions := .arr [] }

/-- Witness for the amended C1: the intersection characterisation at
the concrete `profileACheckout`, and the concrete `TypeError` case at
a profile with an array-valued capability name. -/
theorem negotiate_exact_intersection_witness :
    ("dev.ucp.shopping.checkout" ∈
        ({"dev.ucp.shopping.checkout"} : Finset String) ↔
      "dev.ucp.shopping.checkout" ∈ agentCapabilities ∧
        profileACheckout.capabilities.any
          (fun c => c.name.isStrE "dev.ucp.shopping.checkout") = true) ∧
    (negotiate profileArrName = none ↔
      ((∃ c ∈ profileArrName.capabilities, c.name.hashable = false) ∨
       (∃ h ∈ profileArrName.payment_handlers, h.type.hashable = false))) :=
  ⟨(negotiate_exact_intersection.1 profileACheckout
      { capabilities := {"dev.ucp.shopping.checkout"},
        payment_handlers := {"com.google.pay"} } (by decide)).1
      "dev.ucp.shopping.checkout",
   negotiate_exact_intersection.2.1 profileArrName⟩

/-- A transport on which every request fails with HTTP 500 and an
empty body. -/
def netAll500 : Net := fun _ => .resp { status := 500, body := none, text := "" }

/-- C3 counterexample: when the first `discover(u)` fails, nothing is
cached, so two sequential `discover(u)` calls with no intervening
state change issue two network requests, not at most one. -/
theorem discover_twice_failure_counterexample :
    ¬ ((discoverTwice netAll500 "https://m.example"
          { merchant_cache := [] }).2.2.2.length ≤ 1) := by
  intro h
  rw [show (discoverTwice netAll500 "https://m.example"
        { merchant_cache := [] }).2.2.2.length = 2 from rfl] at h
  exact absurd h (by decide)

/-- C3 amended: if the merchant URL is a cache key, `discover` returns
the cached profile, does not change the state, and issues no network
request; and whenever a `discover` call returns a profile, it issued
at most one request and a second sequential call returns the same
profile with no further request and no state change.  (When the first
call fails, nothing is cached and a repeat call issues a fresh
request.) -/
theorem discover_cache_idempotent :
    (∀ (net : Net) (u : String) (st : ClientState) (p : MerchantProfile),
        List.lookup u st.merchant_cache = some p →
        discover net u st = (.ok p, st, [])) ∧
    (∀ (net : Net) (u : String) (st : ClientState) (p : MerchantProfile)
        (st1 : ClientState) (q1 : List Request),
        discover net u st = (.ok p, st1, q1) →
        q1.length ≤ 1 ∧ discover net u st1 = (.ok p, st1, [])) := by
  constructor
  · intro net u st p h
    simp [discover, h]
  · intro net u st p st1 q1 h
    unfold discover discoverFetch at h
    split at h
    next q hq =>
      obtain ⟨h1, h2, h3⟩ : CallResult.ok q = CallResult.ok p ∧ st = st1 ∧
          ([] : List Request) = q1 := by simpa [Prod.ext_iff] using h
      obtain rfl : q = p := by simpa using h1
      subst h2
      subst h3
      exact ⟨by simp, by simp [discover, hq]⟩
    next hq =>
      dsimp only [] at h
      split at h
      next msg hmsg => simp [Prod.ext_iff] at h
      next r hr =>
        split at h
        · split at h
          next hbody => simp [Prod.ext_iff] at h
          next data hbody =>
            split at h
            next hp => simp [Prod.ext_iff] at h
            next profile hp =>
              obtain ⟨h1, h2, h3⟩ : CallResult.ok profile = CallResult.ok p ∧
                  ({ merchant_cache := (u, profile) :: st.merchant_cache } : ClientState) = st1 ∧
                  ([{ method := "GET", url := wellKnownURL u, body := none }] : List Request) = q1 := by
                simpa [Prod.ext_iff] using h
              obtain rfl : profile = p := by simpa using h1
              subst h2
              subst h3
              refine ⟨by simp, ?_⟩
              simp [discover, List.lookup]
        · simp [Prod.ext_iff] at h

/-- A transport on which every request succeeds with status 200 and an
empty JSON object body. -/
def netOkEmpty : Net := fun _ => .resp { status := 200, body := some (.obj []), text := "" }

/-- The profile `discover` builds for merchant URL `"u"` from an empty
discovery document: every field takes its default. -/
def emptyUProfile : MerchantProfile :=
  { name := .str "Unknown", description := .str "", rest_endpoint := .str "u",
    ucp_version := .str "", capabilities := [], payment_handlers := [],
    extensions := .arr [] }

/-- The client state holding `"u"`'s profile in the cache. -/
def stAfterU : ClientState := { merchant_cache := [("u", emptyUProfile)] }

/-- Witness for the amended C3: a concrete cache hit, and a concrete
successful discovery followed by a request-free second call. -/
theorem discover_cache_idempotent_witness :
    (discover netAll500 "u" stAfterU = (.ok emptyUProfile, stAfterU, [])) ∧
    (([{ method := "GET", url := "u/.well-known/ucp", body := none }] : List Request).length ≤ 1 ∧
      discover netOkEmpty "u" stAfterU = (.ok emptyUProfile, stAfterU, [])) :=
  ⟨discover_cache_idempotent.1 netAll500 "u" stAfterU emptyUProfile rfl,
   discover_cache_idempotent.2 netOkEmpty "u" { merchant_cache := [] } emptyUProfile stAfterU
     [{ method := "GET", url := "u/.well-known/ucp", body := none }] rfl⟩

/-- C9: if `discover` does not return a profile (discovery error,
network error, or an uncaught parse exception), the merchant-profile
cache is unchanged — an entry is stored only after a response has been
received and parsed into a profile. -/
theorem discover_failure_cache_unchanged (net : Net) (u : String) (st : ClientState)
    (r : CallResult MerchantProfile) (st1 : ClientState) (q : List Request)
    (h : discover net u st = (r, st1, q)) (hfail : ∀ p, r ≠ CallResult.ok p) :
    st1 = st := by
  unfold discover discoverFetch at h
  split at h
  next q' hq =>
    exact absurd (by simpa using (congrArg Prod.fst h).symm) (hfail q')
  next hq =>
    dsimp only [] at h
    split at h
    next msg hmsg =>
      simpa using (congrArg (fun t => t.2.1) h).symm
    next r' hr =>
      split at h
      · split at h
        next hbody => simpa using (congrArg (fun t => t.2.1) h).symm
        next data hbody =>
          split at h
          next hp => simpa using (congrArg (fun t => t.2.1) h).symm
          next profile hp =>
            exact absurd (by simpa using (congrArg Prod.fst h).symm) (hfail profile)
      · simpa using (congrArg (fun t => t.2.1) h).symm

/-- Witness for C9: a concrete failing discovery leaves the (empty)
cache as it was. -/
theorem discover_failure_cache_unchanged_witness :
    discover netAll500 "https://m.example" { merchant_cache := [] } =
      (.raised (.ucpError (.str "discovery_failed")
          (.str "Failed to discover merchant: 500") (.obj [])),
       { merchant_cache := [] },
       [{ method := "GET", url := "https://m.example/.well-known/ucp", body := none }]) ∧
    ({ merchant_cache := [] } : ClientState) = { merchant_cache := [] } :=
  ⟨rfl,
   discover_failure_cache_unchanged netAll500 "https://m.example" { merchant_cache := [] }
     (.raised (.ucpError (.str "discovery_failed")
         (.str "Failed to discover merchant: 500") (.obj [])))
     { merchant_cache := [] }
     [{ method := "GET", url := "https://m.example/.well-known/ucp", body := none }]
     rfl (fun _ h => CallResult.noConfusion h)⟩

/-- C4: when discovery yields a merchant profile lacking the
`"dev.ucp.shopping.checkout"` capability, `create_checkout` raises
`CapabilityError("dev.ucp.shopping.checkout")` and the only requests
issued are those of the discovery itself — no checkout POST. -/
theorem create_checkout_capability_gate (net : Net) (u : String) (li : Json)
    (kw : List (String × Json)) (now : String) (st : ClientState)
    (m : MerchantProfile) (st1 : ClientState) (q1 : List Request)
    (hdisc : discover net u st = (.ok m, st1, q1))
    (hcap : m.capabilities.any (fun c => c.name.isStrE "dev.ucp.shopping.checkout") = false) :
    create_checkout net u li kw now st =
      (.raised (.capabilityError (.str "dev.ucp.shopping.checkout")), st1, q1) := by
  unfold create_checkout
  rw [hdisc]
  simp [hcap]

/-- The client state holding `profileAB` (which lacks the checkout
capability) in the cache for `"https://m.example"`. -/
def stAB : ClientState := { merchant_cache := [("https://m.example", profileAB)] }

/-- Witness for C4: with the capability-free `profileAB` cached, the
checkout attempt raises `CapabilityError` and issues no request at
all. -/
theorem create_checkout_capability_gate_witness :
    create_checkout netAll500 "https://m.example" (.arr []) [] "t0" stAB =
      (.raised (.capabilityError (.str "dev.ucp.shopping.checkout")), stAB, []) :=
  create_checkout_capability_gate netAll500 "https://m.example" (.arr []) [] "t0" stAB
    profileAB stAB [] rfl rfl

/-- C5: without a `merchant_url` entry among the options, both
`update_checkout` and `complete_checkout` raise the local validation
error `UCPError("invalid_request", ...)`, leave the state unchanged,
and issue no network request — for every session ID and payment
payload. -/
theorem missing_merchant_url_validation (net : Net) (sid : String) (pd : Json)
    (kw : List (String × Json)) (now : String) (st : ClientState)
    (hmu : List.lookup "merchant_url" kw = none) :
    update_checkout net sid kw now st =
      (.raised (.ucpError (.str "invalid_request")
          (.str "merchant_url required for update") (.obj [])), st, []) ∧
    complete_checkout net sid pd kw st =
      (.raised (.ucpError (.str "invalid_request")
          (.str "merchant_url required for completion") (.obj [])), st, []) := by
  constructor
  · unfold update_checkout
    rw [hmu]
    simp [jsonFalsy]
  · unfold complete_checkout
    rw [hmu]
    simp [jsonFalsy]

/-- Witness for C5 at concrete inputs with no options supplied. -/
theorem missing_merchant_url_validation_witness :
    update_checkout netAll500 "sess-1" [] "t0" stAB =
      (.raised (.ucpError (.str "invalid_request")
          (.str "merchant_url required for update") (.obj [])), stAB, []) ∧
    complete_checkout netAll500 "sess-1" (.obj [("handler_id", .str "gp")]) [] stAB =
      (.raised (.ucpError (.str "invalid_request")
          (.str "merchant_url required for completion") (.obj [])), stAB, []) :=
  missing_merchant_url_validation netAll500 "sess-1" (.obj [("handler_id", .str "gp")])
    [] "t0" stAB rfl

theorem lookup_filter_key (p : String → Bool) (k : String) (l : List (String × Json)) :
    List.lookup k (l.filter (fun kv => p kv.1)) =
      if p k then List.lookup k l else none := by
  induction l with
  | nil => simp
  | cons kv t ih =>
      obtain ⟨k1, v1⟩ := kv
      by_cases hk : k = k1
      · subst hk
        by_cases hpk : p k
        · simp [List.filter_cons, hpk, List.lookup, ih]
        · simp [List.filter_cons, hpk, List.lookup, ih]
      · have hbeq : (k == k1) = false := by simpa using hk
        by_cases hpk : p k1
        · simp [List.filter_cons, hpk, List.lookup, hbeq, ih]
        · simp [List.filter_cons, hpk, List.lookup, hbeq, ih]

theorem lookup_popMerchantURL_none (kw : List (String × Json)) :
    List.lookup "merchant_url" (popMerchantURL kw) = none := by
  have h := lookup_filter_key (fun s => s ≠ "merchant_url") "merchant_url" kw
  simpa [popMerchantURL] using h

theorem lookup_popMerchantURL_other (kw : List (String × Json)) (k : String)
    (hk : k ≠ "merchant_url") :
    List.lookup k (popMerchantURL kw) = List.lookup k kw := by
  have h := lookup_filter_key (fun s => s ≠ "merchant_url") k kw
  simpa [popMerchantURL, hk] using h

theorem lookup_append_first (k : String) (l1 l2 : List (String × Json)) (v : Json)
    (h : List.lookup k l1 = some v) :
    List.lookup k (l1 ++ l2) = some v := by
  induction l1 with
  | nil => simp [List.lookup] at h
  | cons kv t ih =>
      obtain ⟨k1, v1⟩ := kv
      by_cases hk : k = k1
      · subst hk
        simpa [List.lookup] using h
      · have hbeq : (k == k1) = false := by simpa using hk
        rw [List.cons_append]
        simp only [List.lookup, hbeq] at h ⊢
        exact ih h

theorem lookup_append_second (k : String) (l1 l2 : List (String × Json))
    (h : List.lookup k l1 = none) :
    List.lookup k (l1 ++ l2) = List.lookup k l2 := by
  induction l1 with
  | nil => simp
  | cons kv t ih =>
      obtain ⟨k1, v1⟩ := kv
      by_cases hk : k = k1
      · subst hk
        simp [List.lookup] at h
      · have hbeq : (k == k1) = false := by simpa using hk
        rw [List.cons_append]
        simp only [List.lookup, hbeq] at h ⊢
        exact ih h

/-- C10: when the options carry a usable `merchant_url` and discovery
succeeds, `update_checkout` PATCHes and `complete_checkout` POSTs a
body built from the options with the `merchant_url` key removed: the
outbound JSON body never contains a `merchant_url` key, and every
other supplied option is forwarded unchanged. -/
theorem outbound_body_drops_merchant_url (net : Net) (sid : String) (pd : Json)
    (kw : List (String × Json)) (now : String) (st : ClientState) (mu : String)
    (m : MerchantProfile) (st1 : ClientState) (q1 : List Request) (ep : String)
    (hmu : List.lookup "merchant_url" kw = some (.str mu))
    (hne : mu ≠ "")
    (hdisc : discover net mu st = (.ok m, st1, q1))
    (hep : m.rest_endpoint = .str ep) :
    (update_checkout net sid kw now st).2.2 =
      q1 ++ [{ method := "PATCH", url := rstripSlash ep ++ "/checkout/" ++ sid,
               body := some (.obj (popMerchantURL kw)) }] ∧
    (complete_checkout net sid pd kw st).2.2 =
      q1 ++ [{ method := "POST",
               url := rstripSlash ep ++ "/checkout/" ++ sid ++ "/complete",
               body := some (.obj (dictMerge [("payment", pd)] (popMerchantURL kw))) }] ∧
    List.lookup "merchant_url" (popMerchantURL kw) = none ∧
    List.lookup "merchant_url" (dictMerge [("payment", pd)] (popMerchantURL kw)) = none ∧
    (∀ k v, k ≠ "merchant_url" → List.lookup k kw = some v →
        List.lookup k (popMerchantURL kw) = some v ∧
        List.lookup k (dictMerge [("payment", pd)] (popMerchantURL kw)) = some v) := by
  have hfal : jsonFalsy (Json.str mu) = false := by simp [jsonFalsy, hne]
  refine ⟨?_, ?_, lookup_popMerchantURL_none kw, ?_, ?_⟩
  · unfold update_checkout
    rw [hmu]
    simp only [Option.getD_some]
    rw [if_neg (by simp [hfal])]
    rw [hdisc]
    dsimp only []
    rw [hep]
  · unfold complete_checkout
    rw [hmu]
    simp only [Option.getD_some]
    rw [if_neg (by simp [hfal])]
    rw [hdisc]
    dsimp only []
    rw [hep]
  · unfold dictMerge
    rw [lookup_append_second _ _ _ (lookup_popMerchantURL_none kw)]
    simp [List.lookup]
  · intro k v hk hkv
    have h1 : List.lookup k (popMerchantURL kw) = some v := by
      rw [lookup_popMerchantURL_other kw k hk]
      exact hkv
    exact ⟨h1, lookup_append_first _ _ _ _ h1⟩

/-- A merchant profile whose cached entry carries the checkout
capability and a concrete REST endpoint with a trailing slash. -/
def capProfile : MerchantProfile :=
  { name := .str "M", description := .str "",
    rest_endpoint := .str "https://api.example/",
    ucp_version := .str "2026-01-11",
    capabilities := [{ name := .str "dev.ucp.shopping.checkout", version := .str "1" }],
    payment_handlers := [{ id := .str "gp", type := .str "com.google.pay",
                           config := .obj [] }],
    extensions := .arr [] }

/-- The client state holding `capProfile` in the cache for
`"https://m.example"`. -/
def stCap : ClientState := { merchant_cache := [("https://m.example", capProfile)] }

/-- Concrete options carrying a `merchant_url` and one other entry. -/
def kwWithURL : List (String × Json) :=
  [("merchant_url", .str "https://m.example"), ("note", .str "gift")]

/-- Witness for C10 at concrete options with a cached merchant. -/
theorem outbound_body_drops_merchant_url_witness :
    (update_checkout netAll500 "sess-1" kwWithURL "t0" stCap).2.2 =
      [{ method := "PATCH", url := rstripSlash "https://api.example/" ++ "/checkout/" ++ "sess-1",
         body := some (.obj (popMerchantURL kwWithURL)) }] ∧
    (complete_checkout netAll500 "sess-1" (.obj []) kwWithURL stCap).2.2 =
      [{ method := "POST",
         url := rstripSlash "https://api.example/" ++ "/checkout/" ++ "sess-1" ++ "/complete",
         body := some (.obj (dictMerge [("payment", .obj [])] (popMerchantURL kwWithURL))) }] ∧
    List.lookup "merchant_url" (popMerchantURL kwWithURL) = none ∧
    List.lookup "merchant_url" (dictMerge [("payment", .obj [])] (popMerchantURL kwWithURL)) = none ∧
    (∀ k v, k ≠ "merchant_url" → List.lookup k kwWithURL = some v →
        List.lookup k (popMerchantURL kwWithURL) = some v ∧
        List.lookup k (dictMerge [("payment", .obj [])] (popMerchantURL kwWithURL)) = some v) := by
  have h := outbound_body_drops_merchant_url netAll500 "sess-1" (.obj []) kwWithURL "t0"
    stCap "https://m.example" capProfile stCap [] "https://api.example/"
    rfl (by decide) rfl rfl
  simpa using h

/-- A checkout response whose single line item carries no `quantity`
field. -/
def sessionData : Json :=
  .obj [("id", .str "s1"),
        ("line_items", .arr [.obj [("sku", .str "widget")]]),
        ("created_at", .str "2026-02-03T04:05:06"),
        ("expires_at", .str "2026-02-03T05:05:06")]

/-- A transport on which every request succeeds with `sessionData`. -/
def netSession : Net := fun _ => .resp { status := 200, body := some sessionData, text := "" }

/-- The line item the client parses from a `{"sku": "widget"}` wire
item: `quantity` defaults to `0`. -/
def widgetItem : LineItem :=
  { sku := .str "widget", quantity := .num 0, price_cents := .null,
    name := .null, description := .null }

/-- The session the client parses from `sessionData` when the checkout
is created against `capProfile`. -/
def widgetSession : CheckoutSession :=
  { id := .str "s1", status := .str "incomplete",
    merchant_url := "https://m.example", line_items := [widgetItem],
    subtotal_cents := .num 0, tax_cents := .num 0, shipping_cents := .num 0,
    discount_cents := .num 0, total_cents := .num 0, currency := .str "USD",
    payment_handlers := capProfile.payment_handlers,
    created_at := "2026-02-03T04:05:06", expires_at := "2026-02-03T05:05:06",
    terms := .obj [] }

/-- C8 counterexample: a session returned by `create_checkout` can
contain a line item whose quantity is 0 — the client copies the
server's `quantity` field, defaulting to 0 when absent, and never
enforces `quantity ≥ 1`. -/
theorem checkout_line_item_quantity_counterexample :
    (create_checkout netSession "https://m.example" (.arr []) [] "t0" stCap).1 =
      .ok widgetSession ∧
    widgetItem ∈ widgetSession.line_items ∧
    widgetItem.quantity = .num 0 ∧
    ¬ (∀ li ∈ widgetSession.line_items, ∃ n : Int, li.quantity = .num n ∧ 1 ≤ n) := by
  refine ⟨rfl, by simp [widgetSession], rfl, ?_⟩
  intro hall
  obtain ⟨n, hq, hn⟩ := hall widgetItem (by simp [widgetSession])
  rw [show widgetItem.quantity = Json.num 0 from rfl] at hq
  have h0 : (0 : Int) = n := by simpa using hq
  rw [← h0] at hn
  exact absurd hn (by decide)

theorem mapM_option_mem {α β : Type} (f : α → Option β) :
    ∀ (xs : List α) (ys : List β), xs.mapM f = some ys →
      ∀ y ∈ ys, ∃ x ∈ xs, f x = some y := by
  intro xs
  induction xs with
  | nil =>
      intro ys h y hy
      simp only [List.mapM_nil, pure, Option.some.injEq] at h
      subst h
      simp at hy
  | cons x t ih =>
      intro ys h y hy
      rw [List.mapM_cons] at h
      cases hfx : f x with
      | none => rw [hfx] at h; simp at h
      | some b =>
          rw [hfx] at h
          cases hmt : t.mapM f with
          | none => rw [hmt] at h; simp at h
          | some bs =>
              rw [hmt] at h
              simp only [Option.bind_eq_bind, Option.some_bind, Option.pure_def,
                Option.some.injEq] at h
              subst h
              rcases List.mem_cons.mp hy with hy1 | hy2
              · exact ⟨x, List.mem_cons_self x t, hy1 ▸ hfx⟩
              · obtain ⟨x', hx', hfx'⟩ := ih bs hmt y hy2
                exact ⟨x', List.mem_cons_of_mem x hx', hfx'⟩

/-- C8 amended: every line item of a parsed checkout session takes its
`quantity` verbatim from the corresponding item of the server
response's `line_items` array, defaulting to 0 when the field is
absent; the client does not enforce `quantity ≥ 1`. -/
theorem session_line_item_quantities (data : Json) (o : List (String × Json))
    (items : List Json) (mu : String) (phs : List PaymentHandler) (now : String)
    (s : CheckoutSession)
    (ho : data.asObj = some o)
    (hitems : (jget o "line_items" (.arr [])).asArr = some items)
    (hs : parseCheckoutSession data mu phs now = some s) :
    ∀ li ∈ s.line_items, ∃ item ∈ items, ∃ io, item.asObj = some io ∧
      li.quantity = jget io "quantity" (.num 0) := by
  unfold parseCheckoutSession at hs
  rw [ho] at hs
  simp only [Option.bind_eq_bind, Option.some_bind] at hs
  rw [hitems] at hs
  simp only [Option.bind_eq_bind, Option.some_bind] at hs
  cases hli : items.mapM parseLineItem with
  | none => rw [hli] at hs; simp at hs
  | some lis =>
      rw [hli] at hs
      simp only [Option.bind_eq_bind, Option.some_bind] at hs
      cases hca : (jget o "created_at" (.str now)).asStr with
      | none => rw [hca] at hs; simp at hs
      | some ca =>
          rw [hca] at hs
          simp only [Option.bind_eq_bind, Option.some_bind] at hs
          cases hea : (jget o "expires_at" (.str now)).asStr with
          | none => rw [hea] at hs; simp at hs
          | some ea =>
              rw [hea] at hs
              simp only [Option.bind_eq_bind, Option.some_bind, Option.pure_def,
                Option.some.injEq] at hs
              intro li hmem
              have hlis : s.line_items = lis := by rw [← hs]
              rw [hlis] at hmem
              obtain ⟨item, hitem, hparse⟩ := mapM_option_mem parseLineItem items lis hli li hmem
              cases hio : item.asObj with
              | none => unfold parseLineItem at hparse; rw [hio] at hparse; simp at hparse
              | some io =>
                  refine ⟨item, hitem, io, hio, ?_⟩
                  unfold parseLineItem at hparse
                  rw [hio] at hparse
                  simp only [Option.bind_eq_bind, Option.some_bind, Option.pure_def,
                    Option.some.injEq] at hparse
                  rw [← hparse]

/-- Witness for the amended C8 at the concrete `sessionData`
response. -/
theorem session_line_item_quantities_witness :
    ∃ item ∈ [Json.obj [("sku", .str "widget")]], ∃ io, item.asObj = some io ∧
      widgetItem.quantity = jget io "quantity" (.num 0) :=
  session_line_item_quantities sessionData
    [("id", .str "s1"),
     ("line_items", .arr [.obj [("sku", .str "widget")]]),
     ("created_at", .str "2026-02-03T04:05:06"),
     ("expires_at", .str "2026-02-03T05:05:06")]
    [.obj [("sku", .str "widget")]] "https://m.example" capProfile.payment_handlers
    "t0" widgetSession rfl rfl rfl widgetItem (by simp [widgetSession])




/-- The uniform error contract of section 4.2 for the result of one
operation with respect to the wire call it issues: a non-2xx response
maps through `_handle_error_response`, and a connection failure raises
`network_error`. -/
def usesErrorMapping {α : Type} (res : CallResult α) (net : Net) (req : Request) : Prop :=
  (∀ r, net req = .resp r → is2xx r.status = false →
      res = raiseMapped (handleErrorResponse r.status r.body r.text)) ∧
  (∀ msg, net req = .connError msg → res = .raised (networkError msg))

/-- The shared `try` / `except` block satisfies the uniform error
contract. -/
theorem wireCall_usesErrorMapping {α : Type} (net : Net) (req : Request)
    (onOk : Json → CallResult α) :
    usesErrorMapping (wireCall net req onOk) net req := by
  constructor
  · intro r hr h2
    unfold wireCall
    rw [hr]
    dsimp only []
    rw [if_neg (by simp [h2])]
  · intro msg hm
    unfold wireCall
    rw [hm]

/-- C6 amended: `create_checkout`, `update_checkout`,
`complete_checkout` and `get_order` all apply the section 4.2 error
mapping to non-2xx responses on their own wire call and raise
`network_error` on connection failure; `discover`, however, maps every
non-2xx response to the fixed code `discovery_failed` without parsing
the body, and maps connection failures to `network_error` with its own
discovery message. -/
theorem error_mapping_uniform_except_discover :
    (∀ (net : Net) (u : String) (li : Json) (kw : List (String × Json)) (now : String)
        (st : ClientState) (m : MerchantProfile) (st1 : ClientState) (q1 : List Request)
        (ep : String),
        discover net u st = (.ok m, st1, q1) →
        m.capabilities.any (fun c => c.name.isStrE "dev.ucp.shopping.checkout") = true →
        m.rest_endpoint = .str ep →
        usesErrorMapping (create_checkout net u li kw now st).1 net
          { method := "POST", url := rstripSlash ep ++ "/checkout",
            body := some (.obj (dictMerge [("line_items", li)] kw)) }) ∧
    (∀ (net : Net) (sid : String) (kw : List (String × Json)) (now : String)
        (st : ClientState) (mu : String) (m : MerchantProfile) (st1 : ClientState)
        (q1 : List Request) (ep : String),
        List.lookup "merchant_url" kw = some (.str mu) → mu ≠ "" →
        discover net mu st = (.ok m, st1, q1) →
        m.rest_endpoint = .str ep →
        usesErrorMapping (update_checkout net sid kw now st).1 net
          { method := "PATCH", url := rstripSlash ep ++ "/checkout/" ++ sid,
            body := some (.obj (popMerchantURL kw)) }) ∧
    (∀ (net : Net) (sid : String) (pd : Json) (kw : List (String × Json))
        (st : ClientState) (mu : String) (m : MerchantProfile) (st1 : ClientState)
        (q1 : List Request) (ep : String),
        List.lookup "merchant_url" kw = some (.str mu) → mu ≠ "" →
        discover net mu st = (.ok m, st1, q1) →
        m.rest_endpoint = .str ep →
        usesErrorMapping (complete_checkout net sid pd kw st).1 net
          { method := "POST", url := rstripSlash ep ++ "/checkout/" ++ sid ++ "/complete",
            body := some (.obj (dictMerge [("payment", pd)] (popMerchantURL kw))) }) ∧
    (∀ (net : Net) (oid : String) (u : String) (st : ClientState) (m : MerchantProfile)
        (st1 : ClientState) (q1 : List Request) (ep : String),
        discover net u st = (.ok m, st1, q1) →
        m.rest_endpoint = .str ep →
        usesErrorMapping (get_order net oid u st).1 net
          { method := "GET", url := rstripSlash ep ++ "/orders/" ++ oid, body := none }) ∧
    (∀ (net : Net) (u : String) (st : ClientState) (r : HttpResponse),
        List.lookup u st.merchant_cache = none →
        net { method := "GET", url := wellKnownURL u, body := none } = .resp r →
        is2xx r.status = false →
        (discover net u st).1 = .raised (.ucpError (.str "discovery_failed")
            (.str ("Failed to discover merchant: " ++ toString r.status)) (.obj []))) ∧
    (∀ (net : Net) (u : String) (st : ClientState) (msg : String),
        List.lookup u st.merchant_cache = none →
        net { method := "GET", url := wellKnownURL u, body := none } = .connError msg →
        (discover net u st).1 = .raised (.ucpError (.str "network_error")
            (.str ("Network error during discovery: " ++ msg)) (.obj []))) := by
  refine ⟨?_, ?_, ?_, ?_, ?_, ?_⟩
  · intro net u li kw now st m st1 q1 ep hdisc hcap hep
    unfold create_checkout
    rw [hdisc]
    dsimp only []
    simp only [hcap, if_true]
    rw [hep]
    exact wireCall_usesErrorMapping net _ _
  · intro net sid kw now st mu m st1 q1 ep hmu hne hdisc hep
    unfold update_checkout
    rw [hmu]
    simp only [Option.getD_some]
    rw [if_neg (by simp [jsonFalsy, hne])]
    rw [hdisc]
    dsimp only []
    rw [hep]
    exact wireCall_usesErrorMapping net _ _
  · intro net sid pd kw st mu m st1 q1 ep hmu hne hdisc hep
    unfold complete_checkout
    rw [hmu]
    simp only [Option.getD_some]
    rw [if_neg (by simp [jsonFalsy, hne])]
    rw [hdisc]
    dsimp only []
    rw [hep]
    exact wireCall_usesErrorMapping net _ _
  · intro net oid u st m st1 q1 ep hdisc hep
    unfold get_order
    rw [hdisc]
    dsimp only []
    rw [hep]
    exact wireCall_usesErrorMapping net _ _
  · intro net u st r hc hresp h2
    unfold discover discoverFetch
    rw [hc]
    dsimp only []
    rw [hresp]
    dsimp only []
    rw [if_neg (by simp [h2])]
  · intro net u st msg hc hconn
    unfold discover discoverFetch
    rw [hc]
    dsimp only []
    rw [hconn]

/-- A structured `version_mismatch` error body. -/
def vmBody : Json := errBody "version_mismatch" "upgrade" [("required_version", .str "2027-01-01")]

/-- A transport answering every request with 404 and `vmBody`. -/
def net404 : Net := fun _ => .resp { status := 404, body := some vmBody, text := "x" }

/-- A transport answering every request with 418 and `vmBody`. -/
def net418 : Net := fun _ => .resp { status := 418, body := some vmBody, text := "teapot" }

/-- A transport on which every request fails at the connection level. -/
def netConn : Net := fun _ => .connError "boom"

/-- C6 counterexample: a failed discovery does not apply the section
4.2 mapping — a 404 response carrying a parseable `version_mismatch`
error body is reported as `discovery_failed`, not as the
`VersionError` the mapping yields for that response. -/
theorem discover_bypasses_mapping_counterexample :
    (discover net404 "https://m.example" { merchant_cache := [] }).1 =
      .raised (.ucpError (.str "discovery_failed")
        (.str "Failed to discover merchant: 404") (.obj [])) ∧
    (raiseMapped (handleErrorResponse 404 (some vmBody) "x") : CallResult MerchantProfile) =
      .raised (.versionError UCP_VERSION (.str "2027-01-01")) ∧
    (discover net404 "https://m.example" { merchant_cache := [] }).1 ≠
      (raiseMapped (handleErrorResponse 404 (some vmBody) "x") : CallResult MerchantProfile) := by
  refine ⟨rfl, rfl, ?_⟩
  intro h
  rw [show (discover net404 "https://m.example" { merchant_cache := [] }).1 =
        .raised (.ucpError (.str "discovery_failed")
          (.str "Failed to discover merchant: 404") (.obj [])) from rfl,
      show (raiseMapped (handleErrorResponse 404 (some vmBody) "x") : CallResult MerchantProfile) =
        .raised (.versionError UCP_VERSION (.str "2027-01-01")) from rfl] at h
  simp at h

/-- Witness for the amended C6: each operation's failure outcome at a
concrete 418 response and at a concrete connection failure, and
`discover`'s two divergent outcomes. -/
theorem error_mapping_uniform_witness :
    ((create_checkout net418 "https://m.example" (.arr []) [] "t0" stCap).1 =
      raiseMapped (handleErrorResponse 418 (some vmBody) "teapot")) ∧
    ((create_checkout netConn "https://m.example" (.arr []) [] "t0" stCap).1 =
      .raised (networkError "boom")) ∧
    ((update_checkout net418 "sess-1" kwWithURL "t0" stCap).1 =
      raiseMapped (handleErrorResponse 418 (some vmBody) "teapot")) ∧
    ((update_checkout netConn "sess-1" kwWithURL "t0" stCap).1 =
      .raised (networkError "boom")) ∧
    ((complete_checkout net418 "sess-1" (.obj []) kwWithURL stCap).1 =
      raiseMapped (handleErrorResponse 418 (some vmBody) "teapot")) ∧
    ((complete_checkout netConn "sess-1" (.obj []) kwWithURL stCap).1 =
      .raised (networkError "boom")) ∧
    ((get_order net418 "ord-1" "https://m.example" stCap).1 =
      raiseMapped (handleErrorResponse 418 (some vmBody) "teapot")) ∧
    ((get_order netConn "ord-1" "https://m.example" stCap).1 =
      .raised (networkError "boom")) ∧
    ((discover net404 "https://x.example" { merchant_cache := [] }).1 =
      .raised (.ucpError (.str "discovery_failed")
        (.str "Failed to discover merchant: 404") (.obj []))) ∧
    ((discover netConn "https://x.example" { merchant_cache := [] }).1 =
      .raised (.ucpError (.str "network_error")
        (.str "Network error during discovery: boom") (.obj []))) := by
  have h := error_mapping_uniform_except_discover
  refine ⟨?_, ?_, ?_, ?_, ?_, ?_, ?_, ?_, ?_, ?_⟩
  · exact (h.1 net418 "https://m.example" (.arr []) [] "t0" stCap capProfile stCap []
      "https://api.example/" rfl rfl rfl).1
      { status := 418, body := some vmBody, text := "teapot" } rfl rfl
  · exact (h.1 netConn "https://m.example" (.arr []) [] "t0" stCap capProfile stCap []
      "https://api.example/" rfl rfl rfl).2 "boom" rfl
  · exact (h.2.1 net418 "sess-1" kwWithURL "t0" stCap "https://m.example" capProfile stCap []
      "https://api.example/" rfl (by decide) rfl rfl).1
      { status := 418, body := some vmBody, text := "teapot" } rfl rfl
  · exact (h.2.1 netConn "sess-1" kwWithURL "t0" stCap "https://m.example" capProfile stCap []
      "https://api.example/" rfl (by decide) rfl rfl).2 "boom" rfl
  · exact (h.2.2.1 net418 "sess-1" (.obj []) kwWithURL stCap "https://m.example" capProfile
      stCap [] "https://api.example/" rfl (by decide) rfl rfl).1
      { status := 418, body := some vmBody, text := "teapot" } rfl rfl
  · exact (h.2.2.1 netConn "sess-1" (.obj []) kwWithURL stCap "https://m.example" capProfile
      stCap [] "https://api.example/" rfl (by decide) rfl rfl).2 "boom" rfl
  · exact (h.2.2.2.1 net418 "ord-1" "https://m.example" stCap capProfile stCap []
      "https://api.example/" rfl rfl).1
      { status := 418, body := some vmBody, text := "teapot" } rfl rfl
  · exact (h.2.2.2.1 netConn "ord-1" "https://m.example" stCap capProfile stCap []
      "https://api.example/" rfl rfl).2 "boom" rfl
  · exact h.2.2.2.2.1 net404 "https://x.example" { merchant_cache := [] }
      { status := 404, body := some vmBody, text := "x" } rfl rfl rfl
  · exact h.2.2.2.2.2 netConn "https://x.example" { merchant_cache := [] } "boom" rfl rfl
